import Mathlib

/-!
Verification of the ollama-worker request-construction and telemetry-aggregation
logic (`src/worker.py`) against its natural-language specification.

The Python source is shallowly embedded below:

* pure payload assembly (`delegate`, lines 99-147) becomes the pure functions
  `build_system_messages`, `build_user_content`, `build_user_msg`,
  `build_messages`, `tools_load` and `delegate_build`;
* the effectful post-request phase of `delegate` (lines 149-220) becomes
  `delegate_execute`, a function from the decoded transport outcome to the
  ordered list of observable events (log appends, stdout/stderr prints,
  process exit);
* `show_stats` (lines 223-275) becomes `parse_log_lines`, `aggStep`,
  `sort_desc` and `show_stats`;
* filesystem access (`os.path.exists`, `encode_image`, `json.load`) is
  embedded as an explicit environment `Env` mapping paths to file data;
* Python floats are modelled as rationals; Python's `round(x, 2)` and string
  formatting of floats are abstracted by `round2` and `fmt1`.

Python truthiness is translated literally: an `Option String` argument is
"truthy" exactly when it is `some s` with `s ≠ ""`, and an `Option Int`
argument exactly when it is `some n` with `n ≠ 0`, matching `if system:`,
`if input_text:`, `if image:`, `if tools_file:` and `if agents:` in the source.
-/

namespace Worker

set_option maxRecDepth 16384

/-- Structured JSON value, the model of what Python's `json.load` returns and
of the opaque tool-schema / tool-call payloads passed through by the client. -/
inductive Json where
  | null
  | bool (b : Bool)
  | num (n : Int)
  | str (s : String)
  | arr (elems : List Json)
  | obj (fields : List (String × Json))

mutual

/-- Serialization of a JSON value, modelling Python's `json.dumps` (used only
for the stderr echo of tool calls; its exact formatting is irrelevant to the
claims). -/
def Json.dump : Json → String
  | .null => "null"
  | .bool b => if b then "true" else "false"
  | .num n => toString n
  | .str s => "\"" ++ s ++ "\""
  | .arr xs => "[" ++ Json.dumpList xs ++ "]"
  | .obj fs => "\x7b" ++ Json.dumpFields fs ++ "\x7d"

/-- Serialization of a JSON array body. -/
def Json.dumpList : List Json → String
  | [] => ""
  | [x] => Json.dump x
  | x :: y :: xs => Json.dump x ++ ", " ++ Json.dumpList (y :: xs)

/-- Serialization of a JSON object body. -/
def Json.dumpFields : List (String × Json) → String
  | [] => ""
  | [(k, v)] => "\"" ++ k ++ "\": " ++ Json.dump v
  | (k, v) :: f :: fs => "\"" ++ k ++ "\": " ++ Json.dump v ++ ", " ++ Json.dumpFields (f :: fs)

end

/-- Data observable about one file on disk, at the granularity the source
reads it: `b64` is the result of `encode_image` (base64 of the raw bytes,
line 78-81), and `jsonLoad` is the result of Python's `json.load` on the file
(line 143) - `Except.error` models a raised `json.JSONDecodeError`. -/
structure FileData where
  b64 : String
  jsonLoad : Except String Json

/-- Filesystem environment: an association list from path to file data.
`os.path.exists p` is modelled by membership of `p`. -/
structure Env where
  files : List (String × FileData)

/-- Membership test modelling `os.path.exists`. -/
def Env.pathExists (env : Env) (p : String) : Bool :=
  (env.files.lookup p).isSome

/-- The fixed orchestration directive, transcribed verbatim from
`SWARM_SYSTEM_PROMPT` (worker.py lines 34-48, including the two trailing
spaces after "independently"). -/
def SWARM_SYSTEM_PROMPT : String :=
  "You are an AI with Agent Swarm capabilities. For complex tasks, you MUST:\n\n1. **Decompose**: Break the task into distinct sub-tasks that can be handled by specialized agents\n2. **Spawn Agents**: Create named agents (Agent-1, Agent-2, etc.) each with a specific role/expertise\n3. **Execute**: Have each agent complete their analysis/work independently  \n4. **Synthesize**: Coordinate findings from all agents into a unified response\n\nFormat your response as:\n- [ORCHESTRATION PROTOCOL INITIATED]\n- Agent sections with clear headers (### Agent-N: Role)\n- Each agent provides their specialized analysis\n- Synthesis Coordinator section that integrates all findings\n- [ORCHESTRATION COMPLETE - All agents terminated]\n\nBe thorough. Each agent should be an expert in their domain. The synthesis should add value beyond just combining outputs."

/-- The sentence appended for an agent count (worker.py line 106):
`f"\n\nSpawn exactly \x7bagents\x7d specialized agents for this task."`. -/
def agent_sentence (n : Int) : String :=
  "\n\nSpawn exactly " ++ toString n ++ " specialized agents for this task."

/-- Text appended to the swarm prompt for the `agents` argument
(worker.py lines 105-106; `if agents:` is false for `none` and for `0`). -/
def agents_clause (agents : Option Int) : String :=
  match agents with
  | some n => if n = 0 then "" else agent_sentence n
  | none => ""

/-- The swarm prompt after the agent-count step (lines 104-106). -/
def swarm_base (agents : Option Int) : String :=
  SWARM_SYSTEM_PROMPT ++ agents_clause agents

/-- Text appended to the swarm prompt for the `system` argument
(worker.py lines 107-108; `if system:` is false for `none` and for `""`). -/
def ctx_clause (system : Option String) : String :=
  match system with
  | some s => if s = "" then "" else "\n\nAdditional context: " ++ s
  | none => ""

/-- The complete swarm-mode system prompt (worker.py lines 103-108). -/
def swarmPrompt (agents : Option Int) (system : Option String) : String :=
  swarm_base agents ++ ctx_clause system

/-- One chat turn: `\x7brole, content, images?\x7d`; `images = none` models the
`images` key being absent from the message dict. -/
structure Message where
  role : String
  content : String
  images : Option (List String)

/-- System-turn list (worker.py lines 101-111): in swarm mode the single
swarm-prompt system turn; otherwise the caller's system prompt when truthy;
otherwise no system turn. -/
def build_system_messages (swarm : Bool) (agents : Option Int)
    (system : Option String) : List Message :=
  if swarm then
    [{ role := "system", content := swarmPrompt agents system, images := none }]
  else
    match system with
    | some s => if s = "" then [] else [{ role := "system", content := s, images := none }]
    | none => []

/-- User-turn content (worker.py lines 113-116): the task, or
`f"\x7btask\x7d\n\n---\n\n\x7binput_text\x7d"` when `input_text` is truthy. -/
def build_user_content (task : String) (input_text : Option String) : String :=
  match input_text with
  | some s => if s = "" then task else task ++ "\n\n---\n\n" ++ s
  | none => task

/-- Image attachment for the user turn (worker.py lines 120-126): when the
`image` argument is truthy and the path exists, a single-element base64 list;
when truthy and missing, no attachment plus a warning on stderr. -/
def build_user_images (env : Env) (image : Option String) :
    Option (List String) × List String :=
  match image with
  | some p =>
    if p = "" then (none, [])
    else
      match env.files.lookup p with
      | some fd => (some [fd.b64], [])
      | none => (none, ["Warning: Image file not found: " ++ p])
  | none => (none, [])

/-- The user message together with the warnings emitted while building it
(worker.py lines 113-126). -/
def build_user_msg (env : Env) (task : String) (input_text : Option String)
    (image : Option String) : Message × List String :=
  ({ role := "user"
     content := build_user_content task input_text
     images := (build_user_images env image).1 },
   (build_user_images env image).2)

/-- The full message list of the request (worker.py lines 99-127): optional
system turn first, then the single user turn. -/
def build_messages (env : Env) (task : String) (input_text : Option String)
    (system : Option String) (swarm : Bool) (agents : Option Int)
    (image : Option String) : List Message × List String :=
  (build_system_messages swarm agents system ++ [(build_user_msg env task input_text image).1],
   (build_user_msg env task input_text image).2)

/-- The request payload (worker.py lines 130-147); `none` in an optional
field models the corresponding key being absent from the dict. -/
structure Payload where
  model : String
  messages : List Message
  stream : Bool
  think : Option Bool
  tools : Option Json
  format : Option String

/-- Loading of the tools file (worker.py lines 141-143):
`if tools_file and os.path.exists(tools_file)` then `json.load`; a decode
failure is an exception raised outside any handler. -/
def tools_load (env : Env) (tools_file : Option String) :
    Except String (Option Json) :=
  match tools_file with
  | some p =>
    if p = "" then .ok none
    else
      match env.files.lookup p with
      | some fd =>
        match fd.jsonLoad with
        | .ok v => .ok (some v)
        | .error e => .error e
      | none => .ok none
  | none => .ok none

/-- Outcome of the payload-construction phase of `delegate`: either the
payload plus the warnings printed while building it, or an uncaught exception
(a tools-file JSON decode error) raised before the HTTP request is made. -/
inductive BuildOutcome where
  | ok (payload : Payload) (warnings : List String)
  | raise (warnings : List String) (msg : String)

/-- Payload construction, worker.py lines 99-147: messages, `stream: False`,
`think` present iff `think or swarm`, optional tools and format keys. -/
def delegate_build (env : Env) (model task : String) (input_text : Option String)
    (system : Option String) (think swarm : Bool) (image : Option String)
    (tools_file : Option String) (json_output : Bool) (agents : Option Int) :
    BuildOutcome :=
  match tools_load env tools_file with
  | .error e =>
    .raise (build_messages env task input_text system swarm agents image).2 e
  | .ok toolsVal =>
    .ok
      { model := model
        messages := (build_messages env task input_text system swarm agents image).1
        stream := false
        think := if think || swarm then some true else none
        tools := toolsVal
        format := if json_output then some "json" else none }
      (build_messages env task input_text system swarm agents image).2

/-- Python's `round(x, 2)` on the elapsed-seconds float, abstracted over ℚ
(ties are rounded by `round` rather than banker's rounding; no claim depends
on tie behaviour). -/
def round2 (q : ℚ) : ℚ :=
  ((round (q * 100) : ℤ) : ℚ) / 100

/-- One persisted telemetry record (worker.py lines 166-179). -/
structure LogRecord where
  timestamp : String
  model : String
  task_preview : String
  input_chars : Nat
  output_chars : Nat
  thinking : Bool
  swarm : Bool
  tool_calls : Nat
  has_image : Bool
  prompt_eval_count : Nat
  eval_count : Nat
  elapsed_seconds : ℚ

/-- Construction of the log entry appended after a successful call
(worker.py lines 166-179). `bool(thinking_text)` and `bool(image)` are
Python truthiness; `task[:100]` is `String.take`. -/
def mk_log_entry (timestamp model task : String) (input_text : Option String)
    (response_text thinking_text : String) (tool_calls : List Json)
    (swarm : Bool) (image : Option String)
    (prompt_eval_count eval_count : Nat) (elapsed : ℚ) : LogRecord :=
  { timestamp := timestamp
    model := model
    task_preview := task.take 100
    input_chars :=
      match input_text with
      | some s => if s = "" then 0 else s.length
      | none => 0
    output_chars := response_text.length
    thinking := thinking_text ≠ ""
    swarm := swarm
    tool_calls := tool_calls.length
    has_image :=
      match image with
      | some p => p ≠ ""
      | none => false
    prompt_eval_count := prompt_eval_count
    eval_count := eval_count
    elapsed_seconds := round2 elapsed }

/-- Transport-level failure of the HTTP call, at the granularity of the
`except` clauses in worker.py lines 212-220: `requests.exceptions.ConnectionError`,
`requests.exceptions.Timeout`, and every other exception (HTTP error status,
response-body decode failure, ...). -/
inductive TransportError where
  | connection
  | timeout
  | other (msg : String)

/-- The decoded chat message (worker.py lines 160-163); the `.get` defaults
(`""` for content/thinking, `[]` for tool_calls) are already applied. -/
structure ChatMessage where
  content : String
  thinking : String
  tool_calls : List Json

/-- The decoded response body (worker.py lines 157-163, 176-177); the `.get`
defaults (`0` for the token counts) are already applied. -/
structure ChatResponse where
  message : ChatMessage
  prompt_eval_count : Nat
  eval_count : Nat

/-- One observable event of the post-request phase of `delegate`: a record
appended to the telemetry log, a line printed to stderr or stdout, or a
process exit with the given status code. -/
inductive Event where
  | logAppend (r : LogRecord)
  | stderrPrint (s : String)
  | stdoutPrint (s : String)
  | exitCode (code : Nat)

/-- Formatting of the elapsed seconds in the stats footer, abstracting
Python's `f"\x7belapsed:.1f\x7d"`. -/
def fmt1 (q : ℚ) : String :=
  let d : ℤ := round (q * 10)
  toString (d / 10) ++ "." ++ toString (d.natAbs % 10)

/-- The prints following the log append on a successful call
(worker.py lines 185-210), in source order: optional thinking block and tool
calls block on stderr, the response text on stdout, then the stats footer on
stderr. `result.get('prompt_eval_count', '?')` is rendered from the already
defaulted count. -/
def ok_outputs (model : String) (think swarm : Bool) (image : Option String)
    (result : ChatResponse) (elapsed : ℚ) : List Event :=
  (if result.message.thinking = "" then []
   else
     [.stderrPrint "=== THINKING ===",
      .stderrPrint result.message.thinking,
      .stderrPrint "=== END THINKING ===\n"]) ++
  (if result.message.tool_calls.isEmpty then []
   else
     [.stderrPrint "=== TOOL CALLS ===",
      .stderrPrint (Json.dump (.arr result.message.tool_calls)),
      .stderrPrint "=== END TOOL CALLS ===\n"]) ++
  [.stdoutPrint result.message.content] ++
  [.stderrPrint "\n--- Worker Stats ---",
   .stderrPrint ("Model: " ++ model),
   .stderrPrint ("Tokens: " ++ toString result.prompt_eval_count ++ " in, " ++
     toString result.eval_count ++ " out"),
   .stderrPrint ("Time: " ++ fmt1 elapsed ++ "s")] ++
  (if swarm then [.stderrPrint "Mode: Agent Swarm"]
   else if think then [.stderrPrint "Thinking: enabled"]
   else []) ++
  (match image with
   | some p => if p = "" then [] else [.stderrPrint ("Vision: " ++ p)]
   | none => [])

/-- The post-request phase of `delegate` (worker.py lines 149-220), as the
ordered event trace produced from the outcome of the HTTP call. On success
the log entry is appended first, then the outputs are printed; on any
transport or decoding failure an error line goes to stderr and the process
exits with status 1, with no log append. -/
def delegate_execute (model task : String) (input_text : Option String)
    (think swarm : Bool) (image : Option String) (timestamp : String)
    (elapsed : ℚ) (response : Except TransportError ChatResponse) : List Event :=
  match response with
  | .error .connection =>
    [.stderrPrint "Error: Cannot connect to Ollama. Is it running?", .exitCode 1]
  | .error .timeout =>
    [.stderrPrint "Error: Request timed out", .exitCode 1]
  | .error (.other msg) =>
    [.stderrPrint ("Error: " ++ msg), .exitCode 1]
  | .ok result =>
    .logAppend
      (mk_log_entry timestamp model task input_text result.message.content
        result.message.thinking result.message.tool_calls swarm image
        result.prompt_eval_count result.eval_count elapsed)
      :: ok_outputs model think swarm image result elapsed

/-- The HTTP timeout passed to `requests.post` (worker.py line 154). -/
def request_timeout (swarm : Bool) : Nat :=
  if swarm then 600 else 300

/-- Python's `line.strip()` (whitespace stripped from both ends), used by
`show_stats` only to skip blank lines. -/
def pyStrip (s : String) : String :=
  ⟨((s.data.dropWhile Char.isWhitespace).reverse.dropWhile Char.isWhitespace).reverse⟩

/-- Per-model running totals (worker.py line 249). -/
structure ModelStats where
  count : Nat
  tokens_in : Nat
  tokens_out : Nat
  time : ℚ

/-- One record folded into a model's totals (worker.py lines 250-253). -/
def bumpModel (s : ModelStats) (e : LogRecord) : ModelStats :=
  { count := s.count + 1
    tokens_in := s.tokens_in + e.prompt_eval_count
    tokens_out := s.tokens_out + e.eval_count
    time := s.time + e.elapsed_seconds }

/-- The `by_model` dict update (worker.py lines 247-253): a new model is
inserted at the end (Python dicts preserve insertion order), an existing
model's totals are bumped in place. -/
def updateByModel : List (String × ModelStats) → LogRecord → List (String × ModelStats)
  | [], e => [(e.model, bumpModel ⟨0, 0, 0, 0⟩ e)]
  | (k, s) :: rest, e =>
    if k = e.model then (k, bumpModel s e) :: rest
    else (k, s) :: updateByModel rest e

/-- State of the aggregation loop of `show_stats` (worker.py lines 240-262). -/
structure AggState where
  by_model : List (String × ModelStats)
  total_thinking : Nat
  total_vision : Nat
  total_tools : Nat
  total_swarm : Nat

/-- The body of the aggregation loop (worker.py lines 246-262). -/
def aggStep (acc : AggState) (e : LogRecord) : AggState :=
  { by_model := updateByModel acc.by_model e
    total_thinking := acc.total_thinking + (if e.thinking then 1 else 0)
    total_vision := acc.total_vision + (if e.has_image then 1 else 0)
    total_tools := acc.total_tools + (if e.tool_calls > 0 then 1 else 0)
    total_swarm := acc.total_swarm + (if e.swarm then 1 else 0) }

/-- Aggregation over the parsed entries (worker.py lines 240-262). -/
def aggregate (entries : List LogRecord) : AggState :=
  entries.foldl aggStep ⟨[], 0, 0, 0, 0⟩

/-- Stable insertion of one keyed summary into a list kept in non-increasing
count order: placed before the first entry with a strictly smaller count. -/
def insert_desc (x : String × ModelStats) :
    List (String × ModelStats) → List (String × ModelStats)
  | [] => [x]
  | y :: ys => if y.2.count < x.2.count then x :: y :: ys else y :: insert_desc x ys

/-- Stable sort by descending count, modelling
`sorted(by_model.items(), key=lambda x: -x[1]["count"])` (worker.py line 271). -/
def sort_desc (l : List (String × ModelStats)) : List (String × ModelStats) :=
  l.foldr insert_desc []

/-- The printed report of `show_stats` for a non-empty log
(worker.py lines 264-275). -/
structure StatsReport where
  total : Nat
  with_thinking : Nat
  with_swarm : Nat
  with_vision : Nat
  with_tools : Nat
  by_model_sorted : List (String × ModelStats)

/-- The aggregate report computed by `show_stats` from the parsed entries
(worker.py lines 239-275). -/
def show_stats_report (entries : List LogRecord) : StatsReport :=
  let acc := aggregate entries
  { total := entries.length
    with_thinking := acc.total_thinking
    with_swarm := acc.total_swarm
    with_vision := acc.total_vision
    with_tools := acc.total_tools
    by_model_sorted := sort_desc acc.by_model }

/-- Line-oriented parsing of the log file (worker.py lines 229-233): blank
lines (falsy after `strip()`) are skipped, every other line goes through
`json.loads`, whose behaviour is the `loads` argument - `Except.error`
models a raised decode exception. -/
def parse_log_lines (loads : String → Except String LogRecord) :
    List String → Except String (List LogRecord)
  | [] => .ok []
  | l :: ls =>
    if pyStrip l = "" then parse_log_lines loads ls
    else
      match loads l with
      | .error e => .error e
      | .ok r =>
        match parse_log_lines loads ls with
        | .error e => .error e
        | .ok rs => .ok (r :: rs)

/-- Result of the `stats` command: either the no-delegations notice or the
full report. -/
inductive StatsOutput where
  | noDelegations
  | report (r : StatsReport)

/-- The `show_stats` operation (worker.py lines 223-275) over the state of
the log file: `none` models an absent file, `some lines` its lines. An absent
file or a file with no parsed entries yields the notice; otherwise the
aggregate report. -/
def show_stats (loads : String → Except String LogRecord)
    (logFile : Option (List String)) : Except String StatsOutput :=
  match logFile with
  | none => .ok .noDelegations
  | some lines =>
    match parse_log_lines loads lines with
    | .error e => .error e
    | .ok entries =>
      if entries.isEmpty then .ok .noDelegations
      else .ok (.report (show_stats_report entries))

/-- The `stats` command paired with the final state of the log file: the
source opens the log for reading only (worker.py line 230), so the log state
after the operation is the state before it. -/
def show_stats_run (loads : String → Except String LogRecord)
    (logFile : Option (List String)) :
    Except String StatsOutput × Option (List String) :=
  (show_stats loads logFile, logFile)

/-- Test that `needle` occurs at the start of `hay` (character lists). -/
def startsWithList : List Char → List Char → Bool
  | _, [] => true
  | [], _ :: _ => false
  | a :: as, b :: bs => a == b && startsWithList as bs

/-- Test that `needle` occurs somewhere inside `hay` (character lists);
used to state "the system turn content contains the sentence". -/
def containsList (hay needle : List Char) : Bool :=
  match hay with
  | [] => needle.isEmpty
  | _ :: t => startsWithList hay needle || containsList t needle

/-- Relation "left summary has at least the delegation count of the right
one": adjacent order of the per-model report lines. -/
def descCount (a b : String × ModelStats) : Prop :=
  b.2.count ≤ a.2.count

/-- A list starts with itself followed by anything. -/
theorem startsWithList_append (nd rest : List Char) :
    startsWithList (nd ++ rest) nd = true := by
  induction nd with
  | nil => cases rest <;> rfl
  | cons a as ih => simp [startsWithList, ih]

/-- The empty needle is contained in every haystack. -/
theorem containsList_nil_needle (hay : List Char) : containsList hay [] = true := by
  cases hay <;> simp [containsList, startsWithList, List.isEmpty]

/-- A needle is contained in any haystack of which it is a middle segment. -/
theorem containsList_middle (pre nd post : List Char) :
    containsList (pre ++ (nd ++ post)) nd = true := by
  induction pre with
  | nil =>
    cases nd with
    | nil => simpa using containsList_nil_needle post
    | cons b bs =>
      have h := startsWithList_append (b :: bs) post
      simp only [List.nil_append, List.cons_append] at h ⊢
      simp [containsList, h]
  | cons a pre ih => simp [containsList, ih]

/-- Two strings of different lengths are different. -/
theorem str_ne_of_length {s t : String} (h : s.length ≠ t.length) : s ≠ t :=
  fun he => h (by rw [he])

/-- C1 (amended: a supplied but empty `systemPrompt` is treated as absent,
matching `if system:`): for swarm=true the system turn is always the single
swarm prompt, which begins with the fixed orchestration directive; a
non-empty caller `systemPrompt` is appended after the directive as
additional context; and the system turn never consists only of the caller's
`systemPrompt`. -/
theorem C1_swarm_system_turn : ∀ (agents : Option Int) (system : Option String),
    build_system_messages true agents system =
      [{ role := "system", content := swarmPrompt agents system, images := none }] ∧
    startsWithList (swarmPrompt agents system).data SWARM_SYSTEM_PROMPT.data = true ∧
    (∀ s, system = some s → s ≠ "" →
      swarmPrompt agents system = swarm_base agents ++ ("\n\nAdditional context: " ++ s)) ∧
    (∀ s, system = some s → swarmPrompt agents system ≠ s) := by
  intro agents system
  refine ⟨by simp [build_system_messages], ?_, ?_, ?_⟩
  · have h : (swarmPrompt agents system).data =
        SWARM_SYSTEM_PROMPT.data ++
          ((agents_clause agents).data ++ (ctx_clause system).data) := by
      simp [swarmPrompt, swarm_base, String.data_append, List.append_assoc]
    rw [h]
    exact startsWithList_append _ _
  · intro s hs hne
    simp [swarmPrompt, ctx_clause, hs, hne]
  · intro s hs
    apply str_ne_of_length
    by_cases hne : s = ""
    · subst hne hs
      simp [swarmPrompt, swarm_base, ctx_clause, String.length_append]
      have hpos : 0 < SWARM_SYSTEM_PROMPT.length := by decide
      omega
    · subst hs
      simp [swarmPrompt, swarm_base, ctx_clause, hne, String.length_append]
      have hsep : (0:Nat) < ("\n\nAdditional context: " : String).length := by decide
      omega

/-- Witness for C1 at `agents = some 3`, `system = some "ctx"`. -/
theorem C1_witness :
    build_system_messages true (some 3) (some "ctx") =
      [{ role := "system", content := swarmPrompt (some 3) (some "ctx"), images := none }] ∧
    startsWithList (swarmPrompt (some 3) (some "ctx")).data SWARM_SYSTEM_PROMPT.data = true ∧
    swarmPrompt (some 3) (some "ctx") =
      swarm_base (some 3) ++ ("\n\nAdditional context: " ++ "ctx") ∧
    swarmPrompt (some 3) (some "ctx") ≠ "ctx" := by
  obtain ⟨h1, h2, h3, h4⟩ := C1_swarm_system_turn (some 3) (some "ctx")
  exact ⟨h1, h2, h3 "ctx" rfl (by decide), h4 "ctx" rfl⟩

/-- Counterexample to C1 as stated: with `systemPrompt` supplied as the empty
string (`--system ""`), `if system:` is false, so nothing is appended to the
directive - the "additional context" suffix the claim promises for every
supplied `systemPrompt` is absent. -/
theorem C1_counterexample :
    build_system_messages true none (some "") =
      [{ role := "system", content := SWARM_SYSTEM_PROMPT, images := none }] ∧
    SWARM_SYSTEM_PROMPT ≠ swarm_base none ++ ("\n\nAdditional context: " ++ "") := by
  constructor
  · simp [build_system_messages, swarmPrompt, swarm_base, agents_clause, ctx_clause,
      String.append_empty]
  · apply str_ne_of_length
    simp [swarm_base, agents_clause, String.length_append, String.append_empty]
    decide

/-- C2 (amended: a supplied but empty `inputText` is treated as absent,
matching `if input_text:`): the user turn content is `task` exactly when
`inputText` is absent or empty, and `task` followed by the visible separator
`"\n\n---\n\n"` and `inputText` when it is non-empty - in which case it
differs from `task`. -/
theorem C2_user_turn : ∀ (task : String) (input_text : Option String),
    ((input_text = none ∨ input_text = some "") → build_user_content task input_text = task) ∧
    (∀ s, input_text = some s → s ≠ "" →
      build_user_content task input_text = task ++ "\n\n---\n\n" ++ s ∧
      build_user_content task input_text ≠ task) := by
  intro task input_text
  constructor
  · rintro (rfl | rfl) <;> simp [build_user_content]
  · intro s hs hne
    subst hs
    refine ⟨by simp [build_user_content, hne], ?_⟩
    simp only [build_user_content, if_neg hne]
    apply str_ne_of_length
    simp [String.length_append]
    have hsep : (0:Nat) < ("\n\n---\n\n" : String).length := by decide
    omega

/-- Witness for C2 at `task = "t"` with `inputText` absent and with
`inputText = "data"`. -/
theorem C2_witness :
    build_user_content "t" none = "t" ∧
    build_user_content "t" (some "data") = "t" ++ "\n\n---\n\n" ++ "data" :=
  ⟨(C2_user_turn "t" none).1 (Or.inl rfl),
   ((C2_user_turn "t" (some "data")).2 "data" rfl (by decide)).1⟩

/-- Counterexample to C2 as stated: with `inputText` supplied as the empty
string (`--input ""`), `if input_text:` is false, so the user turn is `task`
alone rather than `task` + separator + `inputText`. -/
theorem C2_counterexample :
    build_user_content "t" (some "") = "t" ∧
    build_user_content "t" (some "") ≠ "t" ++ "\n\n---\n\n" ++ "" := by
  exact ⟨rfl, by decide⟩

/-- C3: the request's `think` key is present (set to true) exactly when
`think` or `swarm` was passed. -/
theorem C3_thinking_flag : ∀ (env : Env) (model task : String)
    (input_text system : Option String) (think swarm : Bool)
    (image tools_file : Option String) (json_output : Bool) (agents : Option Int)
    (payload : Payload) (warnings : List String),
    delegate_build env model task input_text system think swarm image tools_file
      json_output agents = .ok payload warnings →
    (payload.think = some true ↔ (think = true ∨ swarm = true)) := by
  intro env model task input_text system think swarm image tools_file json_output
    agents payload warnings h
  rw [delegate_build] at h
  rcases htl : tools_load env tools_file with e | toolsVal <;> rw [htl] at h
  · cases h
  · cases h
    cases think <;> cases swarm <;> simp

/-- Witness for C3 at `think = true`, `swarm = false` in an empty
environment. -/
theorem C3_witness :
    ({ model := "m"
       messages := [{ role := "user", content := "t", images := none }]
       stream := false
       think := some true
       tools := none
       format := none } : Payload).think = some true ↔ (true = true ∨ false = true) :=
  C3_thinking_flag ⟨[]⟩ "m" "t" none none true false none none false none _ _ rfl

/-- C6 (amended: `agentCount = 0` is falsy for `if agents:` and appends no
sentence, so the claim holds for every non-zero integer N): for swarm=true
and a non-zero `agentCount` N, the system turn is the swarm prompt, built as
the directive followed by the sentence "Spawn exactly N specialized agents
for this task.", so the content contains that sentence. -/
theorem C6_agent_count : ∀ (n : Int) (system : Option String), n ≠ 0 →
    build_system_messages true (some n) system =
      [{ role := "system", content := swarmPrompt (some n) system, images := none }] ∧
    swarmPrompt (some n) system =
      SWARM_SYSTEM_PROMPT ++ agent_sentence n ++ ctx_clause system ∧
    containsList (swarmPrompt (some n) system).data (agent_sentence n).data = true := by
  intro n system hn
  refine ⟨by simp [build_system_messages], ?_, ?_⟩
  · simp [swarmPrompt, swarm_base, agents_clause, hn]
  · have hdata : (swarmPrompt (some n) system).data =
        SWARM_SYSTEM_PROMPT.data ++ ((agent_sentence n).data ++ (ctx_clause system).data) := by
      simp [swarmPrompt, swarm_base, agents_clause, hn, String.data_append, List.append_assoc]
    rw [hdata]
    exact containsList_middle _ _ _

/-- Witness for C6 at `agentCount = 3`, no caller system prompt. -/
theorem C6_witness :
    build_system_messages true (some 3) none =
      [{ role := "system", content := swarmPrompt (some 3) none, images := none }] ∧
    swarmPrompt (some 3) none =
      SWARM_SYSTEM_PROMPT ++ agent_sentence 3 ++ ctx_clause none ∧
    containsList (swarmPrompt (some 3) none).data (agent_sentence 3).data = true :=
  C6_agent_count 3 none (by decide)

/-- Counterexample to C6 as stated: with `agentCount = 0` (`--agents 0`),
`if agents:` is false, so the system turn is the bare directive and no
sentence naming 0 occurs anywhere in it. -/
theorem C6_counterexample :
    build_system_messages true (some 0) none =
      [{ role := "system", content := SWARM_SYSTEM_PROMPT, images := none }] ∧
    containsList SWARM_SYSTEM_PROMPT.data (agent_sentence 0).data = false := by
  constructor
  · simp [build_system_messages, swarmPrompt, swarm_base, agents_clause, ctx_clause,
      String.append_empty]
  · decide

/-- C7: for every combination of build inputs, the message list is a single
user turn, or a system turn followed by a user turn - so there is at most one
system turn (in first position) and exactly one user turn (in last
position). -/
theorem C7_messages_shape : ∀ (env : Env) (task : String)
    (input_text system : Option String) (swarm : Bool) (agents : Option Int)
    (image : Option String),
    ∃ u : Message, u.role = "user" ∧
      ((build_messages env task input_text system swarm agents image).1 = [u] ∨
       ∃ sysMsg : Message, sysMsg.role = "system" ∧
         (build_messages env task input_text system swarm agents image).1 = [sysMsg, u]) := by
  intro env task input_text system swarm agents image
  refine ⟨(build_user_msg env task input_text image).1, rfl, ?_⟩
  cases swarm
  · cases system with
    | none => exact Or.inl (by simp [build_messages, build_system_messages])
    | some s =>
      by_cases hs : s = ""
      · exact Or.inl (by simp [build_messages, build_system_messages, hs])
      · exact Or.inr ⟨{ role := "system", content := s, images := none }, rfl,
          by simp [build_messages, build_system_messages, hs]⟩
  · exact Or.inr ⟨{ role := "system", content := swarmPrompt agents system, images := none },
      rfl, by simp [build_messages, build_system_messages]⟩

/-- C8 (amended: content that fails JSON parsing raises during request
construction, before the remote call; only the parse itself is attempted, no
schema validation): for a truthy tools path - if the path does not resolve,
the build is exactly the build with no tools path (silent omission, no
error); if it resolves and parses, the parsed value is attached as `tools`;
if it resolves and parsing fails, the build raises that error before any
request is made. -/
theorem C8_tools_handling : ∀ (env : Env) (model task : String)
    (input_text system : Option String) (think swarm : Bool)
    (image : Option String) (json_output : Bool) (agents : Option Int)
    (p : String), p ≠ "" →
    (env.files.lookup p = none →
      delegate_build env model task input_text system think swarm image (some p)
          json_output agents =
        delegate_build env model task input_text system think swarm image none
          json_output agents) ∧
    (∀ fd : FileData, env.files.lookup p = some fd →
      (∀ v, fd.jsonLoad = .ok v →
        delegate_build env model task input_text system think swarm image (some p)
            json_output agents =
          .ok
            { model := model
              messages := (build_messages env task input_text system swarm agents image).1
              stream := false
              think := if think || swarm then some true else none
              tools := some v
              format := if json_output then some "json" else none }
            (build_messages env task input_text system swarm agents image).2) ∧
      (∀ e, fd.jsonLoad = .error e →
        delegate_build env model task input_text system think swarm image (some p)
            json_output agents =
          .raise (build_messages env task input_text system swarm agents image).2 e)) := by
  intro env model task input_text system think swarm image json_output agents p hp
  refine ⟨?_, ?_⟩
  · intro hlk
    simp [delegate_build, tools_load, hp, hlk]
  · intro fd hlk
    refine ⟨?_, ?_⟩
    · intro v hv
      simp [delegate_build, tools_load, hp, hlk, hv]
    · intro e he
      simp [delegate_build, tools_load, hp, hlk, he]

/-- Witness for C8: an unresolvable path is silently omitted, and a
resolvable, parseable file is attached. -/
theorem C8_witness :
    delegate_build ⟨[("good.json", ⟨"", Except.ok (Json.num 1)⟩)]⟩ "m" "t" none none
        false false none (some "missing.json") false none =
      delegate_build ⟨[("good.json", ⟨"", Except.ok (Json.num 1)⟩)]⟩ "m" "t" none none
        false false none none false none ∧
    delegate_build ⟨[("good.json", ⟨"", Except.ok (Json.num 1)⟩)]⟩ "m" "t" none none
        false false none (some "good.json") false none =
      .ok
        { model := "m"
          messages := (build_messages ⟨[("good.json", ⟨"", Except.ok (Json.num 1)⟩)]⟩
            "t" none none false none none).1
          stream := false
          think := if false || false then some true else none
          tools := some (Json.num 1)
          format := if false then some "json" else none }
        (build_messages ⟨[("good.json", ⟨"", Except.ok (Json.num 1)⟩)]⟩
          "t" none none false none none).2 := by
  have h1 := C8_tools_handling ⟨[("good.json", ⟨"", Except.ok (Json.num 1)⟩)]⟩ "m" "t"
    none none false false none false none "missing.json" (by decide)
  have h2 := C8_tools_handling ⟨[("good.json", ⟨"", Except.ok (Json.num 1)⟩)]⟩ "m" "t"
    none none false false none false none "good.json" (by decide)
  exact ⟨h1.1 rfl, (h2.2 ⟨"", Except.ok (Json.num 1)⟩ rfl).1 (Json.num 1) rfl⟩

/-- Counterexample to C8 as stated: a resolvable tools file whose content is
malformed JSON makes `json.load` raise during payload construction (outside
the try block, before `requests.post` is ever called), so the malformed
content is surfaced before the remote call, not by it. -/
theorem C8_counterexample :
    delegate_build ⟨[("tools.json", ⟨"", Except.error "Expecting value"⟩)]⟩ "m" "t"
        none none false false none (some "tools.json") false none =
      .raise [] "Expecting value" := rfl

/-- C10 (amended: an empty image path is falsy for `if image:` and is treated
as absent, recording `hasImage = false`): for a non-empty image path that
does not resolve, the user message is built with no image attachment and a
warning is emitted, yet the log record's `has_image` field is still true -
it records that a truthy image path was supplied, not that an image was
attached. -/
theorem C10_has_image_flag : ∀ (env : Env) (task : String)
    (input_text : Option String) (p : String), p ≠ "" →
    env.files.lookup p = none →
    (build_user_msg env task input_text (some p)).1.images = none ∧
    (build_user_msg env task input_text (some p)).2 =
      ["Warning: Image file not found: " ++ p] ∧
    (∀ (timestamp model response_text thinking_text : String)
      (tool_calls : List Json) (swarm : Bool) (pec ec : Nat) (elapsed : ℚ),
      (mk_log_entry timestamp model task input_text response_text thinking_text
        tool_calls swarm (some p) pec ec elapsed).has_image = true) := by
  intro env task input_text p hp hlk
  refine ⟨?_, ?_, ?_⟩
  · simp [build_user_msg, build_user_images, hp, hlk]
  · simp [build_user_msg, build_user_images, hp, hlk]
  · intro timestamp model response_text thinking_text tool_calls swarm pec ec elapsed
    simp [mk_log_entry, hp]

/-- Witness for C10 at the unresolvable path "missing.jpg" in an empty
environment. -/
theorem C10_witness :
    (build_user_msg ⟨[]⟩ "t" none (some "missing.jpg")).1.images = none ∧
    (build_user_msg ⟨[]⟩ "t" none (some "missing.jpg")).2 =
      ["Warning: Image file not found: " ++ "missing.jpg"] ∧
    (mk_log_entry "ts" "m" "t" none "out" "" [] false (some "missing.jpg") 1 2 3).has_image
      = true := by
  obtain ⟨h1, h2, h3⟩ := C10_has_image_flag ⟨[]⟩ "t" none "missing.jpg" (by decide) rfl
  exact ⟨h1, h2, h3 "ts" "m" "out" "" [] false 1 2 3⟩

/-- Counterexample to C10 as stated: with `imagePath` supplied as the empty
string (which never resolves - `os.path.exists("")` is false), no warning is
emitted and the log record's `has_image` is false, because `if image:` and
`bool(image)` are both false for `""`. -/
theorem C10_counterexample :
    (build_user_msg ⟨[]⟩ "t" none (some "")).2 = [] ∧
    (mk_log_entry "ts" "m" "t" none "out" "" [] false (some "") 1 2 3).has_image = false :=
  ⟨rfl, rfl⟩

/-- Facts about the prints that follow the log append on a successful call:
they contain no log append, they do emit the response text on stdout, and
they contain no process exit. -/
theorem ok_outputs_facts (model : String) (think swarm : Bool) (image : Option String)
    (result : ChatResponse) (elapsed : ℚ) :
    (∀ r, Event.logAppend r ∉ ok_outputs model think swarm image result elapsed) ∧
    Event.stdoutPrint result.message.content ∈
      ok_outputs model think swarm image result elapsed ∧
    (∀ c, Event.exitCode c ∉ ok_outputs model think swarm image result elapsed) := by
  refine ⟨fun r => ?_, ?_, fun c => ?_⟩ <;>
    · unfold ok_outputs
      rcases image with _ | p <;> split_ifs <;> simp [List.mem_append]

/-- C4: the post-request phase of `delegate` has no partial-success state.
On every transport or decoding failure the trace contains no log append, no
stdout output, and a non-zero process exit; on every success the trace is
exactly one log append, placed before every other event, followed by outputs
that include the result text on stdout and no process exit. -/
theorem C4_no_partial_success : ∀ (model task : String) (input_text : Option String)
    (think swarm : Bool) (image : Option String) (timestamp : String) (elapsed : ℚ)
    (response : Except TransportError ChatResponse),
    (∀ err, response = .error err →
      (∀ r, Event.logAppend r ∉
        delegate_execute model task input_text think swarm image timestamp elapsed response) ∧
      Event.exitCode 1 ∈
        delegate_execute model task input_text think swarm image timestamp elapsed response ∧
      (∀ s, Event.stdoutPrint s ∉
        delegate_execute model task input_text think swarm image timestamp elapsed response)) ∧
    (∀ result, response = .ok result →
      delegate_execute model task input_text think swarm image timestamp elapsed response =
        Event.logAppend (mk_log_entry timestamp model task input_text
          result.message.content result.message.thinking result.message.tool_calls
          swarm image result.prompt_eval_count result.eval_count elapsed)
        :: ok_outputs model think swarm image result elapsed ∧
      (∀ r, Event.logAppend r ∉ ok_outputs model think swarm image result elapsed) ∧
      Event.stdoutPrint result.message.content ∈
        ok_outputs model think swarm image result elapsed ∧
      (∀ c, Event.exitCode c ∉
        delegate_execute model task input_text think swarm image timestamp elapsed response)) := by
  intro model task input_text think swarm image timestamp elapsed response
  constructor
  · rintro err rfl
    cases err <;>
      exact ⟨fun r => by simp [delegate_execute], by simp [delegate_execute],
        fun s => by simp [delegate_execute]⟩
  · rintro result rfl
    obtain ⟨hno, hmem, hexit⟩ := ok_outputs_facts model think swarm image result elapsed
    refine ⟨rfl, hno, hmem, fun c => ?_⟩
    intro hc
    rw [delegate_execute] at hc
    rcases List.mem_cons.mp hc with h | h
    · cases h
    · exact hexit c h

/-- Witness for C4: a refused connection yields a non-zero exit, and a
concrete successful response yields the log append first and the response
text on stdout. -/
theorem C4_witness :
    Event.exitCode 1 ∈
      delegate_execute "m" "t" none false false none "ts" 1 (.error .connection) ∧
    delegate_execute "m" "t" none false false none "ts" 1
        (.ok { message := { content := "out", thinking := "", tool_calls := [] },
               prompt_eval_count := 1, eval_count := 2 }) =
      Event.logAppend (mk_log_entry "ts" "m" "t" none "out" "" [] false none 1 2 1)
        :: ok_outputs "m" false false none
             { message := { content := "out", thinking := "", tool_calls := [] },
               prompt_eval_count := 1, eval_count := 2 } 1 ∧
    Event.stdoutPrint "out" ∈ ok_outputs "m" false false none
      { message := { content := "out", thinking := "", tool_calls := [] },
        prompt_eval_count := 1, eval_count := 2 } 1 := by
  have h1 := (C4_no_partial_success "m" "t" none false false none "ts" 1
    (.error .connection)).1 .connection rfl
  have h2 := (C4_no_partial_success "m" "t" none false false none "ts" 1
    (.ok { message := { content := "out", thinking := "", tool_calls := [] },
           prompt_eval_count := 1, eval_count := 2 })).2
    { message := { content := "out", thinking := "", tool_calls := [] },
      prompt_eval_count := 1, eval_count := 2 } rfl
  exact ⟨h1.2.1, h2.1, h2.2.2.1⟩

/-- The `by_model` component of the aggregation loop is the fold of the
dict-update alone. -/
theorem foldl_aggStep_by_model (l : List LogRecord) (acc : AggState) :
    (l.foldl aggStep acc).by_model = l.foldl updateByModel acc.by_model := by
  induction l generalizing acc with
  | nil => rfl
  | cons e l ih =>
    simp only [List.foldl_cons]
    rw [ih]
    rfl

/-- Folding records that all belong to model `m` into a singleton `by_model`
dict accumulates the count and the three sums. -/
theorem foldl_update_all_same (m : String) :
    ∀ (l : List LogRecord) (st : ModelStats), (∀ e ∈ l, e.model = m) →
    l.foldl updateByModel [(m, st)] =
      [(m, { count := st.count + l.length
             tokens_in := st.tokens_in + (l.map LogRecord.prompt_eval_count).sum
             tokens_out := st.tokens_out + (l.map LogRecord.eval_count).sum
             time := st.time + (l.map LogRecord.elapsed_seconds).sum })] := by
  intro l
  induction l with
  | nil =>
    intro st _
    obtain ⟨c, ti, tko, t⟩ := st
    simp
  | cons e l ih =>
    intro st h
    have hm : e.model = m := h e (by simp)
    have hup : updateByModel [(m, st)] e = [(m, bumpModel st e)] := by
      simp [updateByModel, hm]
    simp only [List.foldl_cons, hup]
    rw [ih (bumpModel st e) (fun x hx => h x (by simp [hx]))]
    simp only [bumpModel, List.cons.injEq, Prod.mk.injEq, ModelStats.mk.injEq,
      List.map_cons, List.sum_cons, List.length_cons, and_true, true_and]
    refine ⟨by omega, by omega, by omega, by ring⟩

/-- Every member of `insert_desc x l` is `x` or a member of `l`. -/
theorem mem_insert_desc {x a : String × ModelStats} :
    ∀ {l : List (String × ModelStats)}, a ∈ insert_desc x l → a = x ∨ a ∈ l := by
  intro l
  induction l with
  | nil =>
    intro h
    simp [insert_desc] at h
    exact Or.inl h
  | cons y ys ih =>
    intro h
    rw [insert_desc] at h
    split at h
    · exact List.mem_cons.mp h
    · rcases List.mem_cons.mp h with rfl | h'
      · exact Or.inr (by simp)
      · rcases ih h' with rfl | h''
        · exact Or.inl rfl
        · exact Or.inr (by simp [h''])

/-- Inserting into a list sorted by non-increasing count keeps it sorted. -/
theorem pairwise_insert_desc {x : String × ModelStats} :
    ∀ {l : List (String × ModelStats)},
    l.Pairwise descCount → (insert_desc x l).Pairwise descCount := by
  intro l
  induction l with
  | nil => intro _; simp [insert_desc]
  | cons y ys ih =>
    intro h
    rcases List.pairwise_cons.mp h with ⟨hy, hys⟩
    rw [insert_desc]
    split
    · rename_i hlt
      refine List.pairwise_cons.mpr ⟨?_, h⟩
      intro z hz
      rcases List.mem_cons.mp hz with rfl | hz'
      · exact le_of_lt hlt
      · exact le_trans (hy z hz') (le_of_lt hlt)
    · rename_i hge
      refine List.pairwise_cons.mpr ⟨?_, ih hys⟩
      intro z hz
      rcases mem_insert_desc hz with rfl | hz'
      · exact Nat.le_of_not_lt hge
      · exact hy z hz'

/-- The per-model report order produced by `sort_desc` is non-increasing in
delegation count. -/
theorem sort_desc_sorted (l : List (String × ModelStats)) :
    (sort_desc l).Pairwise descCount := by
  rw [sort_desc]
  induction l with
  | nil => simp
  | cons a l ih =>
    simp only [List.foldr_cons]
    exact pairwise_insert_desc ih

/-- C5: aggregating a log of K records that all name model m yields exactly
the summary (m, count = K, sums of prompt tokens, eval tokens and elapsed
seconds); and for every log the per-model summaries are reported in
non-increasing delegation-count order. -/
theorem C5_aggregation :
    (∀ (m : String) (entries : List LogRecord), entries ≠ [] →
      (∀ e ∈ entries, e.model = m) →
      (show_stats_report entries).by_model_sorted =
        [(m, { count := entries.length
               tokens_in := (entries.map LogRecord.prompt_eval_count).sum
               tokens_out := (entries.map LogRecord.eval_count).sum
               time := (entries.map LogRecord.elapsed_seconds).sum })]) ∧
    (∀ entries : List LogRecord,
      (show_stats_report entries).by_model_sorted.Pairwise descCount) := by
  constructor
  · intro m entries hne hall
    cases entries with
    | nil => exact absurd rfl hne
    | cons e es =>
      have hm : e.model = m := hall e (by simp)
      have hes : ∀ x ∈ es, x.model = m := fun x hx => hall x (by simp [hx])
      have hbm : (aggregate (e :: es)).by_model =
          [(m, { count := 1 + es.length
                 tokens_in := e.prompt_eval_count + (es.map LogRecord.prompt_eval_count).sum
                 tokens_out := e.eval_count + (es.map LogRecord.eval_count).sum
                 time := e.elapsed_seconds + (es.map LogRecord.elapsed_seconds).sum })] := by
        rw [aggregate, foldl_aggStep_by_model]
        simp only [List.foldl_cons]
        have hup : updateByModel ([] : List (String × ModelStats)) e =
            [(m, bumpModel ⟨0, 0, 0, 0⟩ e)] := by
          simp [updateByModel, hm]
        rw [hup, foldl_update_all_same m es (bumpModel ⟨0, 0, 0, 0⟩ e) hes]
        simp [bumpModel]
      simp only [show_stats_report, hbm]
      simp only [sort_desc, List.foldr_cons, List.foldr_nil, insert_desc,
        List.cons.injEq, Prod.mk.injEq, ModelStats.mk.injEq, List.map_cons,
        List.sum_cons, List.length_cons, and_true, true_and]
      omega
  · intro entries
    simp only [show_stats_report]
    exact sort_desc_sorted _

/-- Witness for C5 on a two-record log for model "m" with token counts
(10, 20), (5, 7) and elapsed times 1 and 2. -/
theorem C5_witness :
    (show_stats_report
      [{ timestamp := "t1", model := "m", task_preview := "p", input_chars := 0,
         output_chars := 3, thinking := false, swarm := false, tool_calls := 0,
         has_image := false, prompt_eval_count := 10, eval_count := 20,
         elapsed_seconds := 1 },
       { timestamp := "t2", model := "m", task_preview := "p", input_chars := 0,
         output_chars := 4, thinking := true, swarm := false, tool_calls := 0,
         has_image := false, prompt_eval_count := 5, eval_count := 7,
         elapsed_seconds := 2 }]).by_model_sorted =
      [("m", { count := 2, tokens_in := 15, tokens_out := 27, time := 3 })] := by
  have h := C5_aggregation.1 "m"
    [{ timestamp := "t1", model := "m", task_preview := "p", input_chars := 0,
       output_chars := 3, thinking := false, swarm := false, tool_calls := 0,
       has_image := false, prompt_eval_count := 10, eval_count := 20,
       elapsed_seconds := 1 },
     { timestamp := "t2", model := "m", task_preview := "p", input_chars := 0,
       output_chars := 4, thinking := true, swarm := false, tool_calls := 0,
       has_image := false, prompt_eval_count := 5, eval_count := 7,
       elapsed_seconds := 2 }] (by simp) (by simp)
  rw [h]
  norm_num

/-- Blank lines (falsy after strip) are skipped: a log of only blank lines
parses to no entries, whatever the line decoder does. -/
theorem parse_log_lines_blank (loads : String → Except String LogRecord) :
    ∀ ls : List String, (∀ l ∈ ls, pyStrip l = "") →
    parse_log_lines loads ls = .ok [] := by
  intro ls
  induction ls with
  | nil => intro _; rfl
  | cons l ls ih =>
    intro h
    rw [parse_log_lines, if_pos (h l (by simp))]
    exact ih (fun x hx => h x (by simp [hx]))

/-- C9: when the log file is absent, or every one of its lines is blank
(skipped by the line-oriented parse), the stats operation reports that no
delegations were recorded - returning normally for any line decoder, hence
raising no decode error - and leaves the log file state unchanged. -/
theorem C9_empty_log : ∀ (loads : String → Except String LogRecord)
    (logFile : Option (List String)),
    (logFile = none ∨ ∃ ls, logFile = some ls ∧ ∀ l ∈ ls, pyStrip l = "") →
    show_stats loads logFile = .ok .noDelegations ∧
    (show_stats_run loads logFile).2 = logFile := by
  intro loads logFile h
  refine ⟨?_, rfl⟩
  rcases h with rfl | ⟨ls, rfl, hb⟩
  · rfl
  · rw [show_stats, parse_log_lines_blank loads ls hb]
    rfl

/-- Witness for C9 on a log of one empty and one whitespace-only line, with
a decoder that fails on every line. -/
theorem C9_witness :
    show_stats (fun _ => .error "boom") (some ["", "  "]) = .ok .noDelegations :=
  (C9_empty_log (fun _ => .error "boom") (some ["", "  "])
    (Or.inr ⟨["", "  "], rfl, by decide⟩)).1

end Worker
